import Mathlib

/-!
Verification of the Control4 Matrix Amp driver
(custom_components/control4_matrix_amp).

The development shallowly embeds the two relevant modules:

* matrix_amp.py  — the datagram transport client and command encoders
  (class Control4MatrixAmp);
* media_player.py — the per-output zone facade
  (class Control4MatrixAmpMediaPlayer).

Pure computations (string formatting, hex encoding, label parsing) are
translated to executable Lean functions.  The network is modelled by an
explicit environment outcome (reply / timeout / exception) threaded into
every operation; Python exceptions are modelled with Except.  Command
sends are made observable: each driver operation returns, besides its
Python return value, the command body it handed to send_command
(none when the operation returned before any I/O).
-/

/-- Protocol constant VOLUME_OFFSET = 160 (matrix_amp.py). -/
def VOLUME_OFFSET : Nat := 160

/-- Constant DEFAULT_NUM_INPUTS = 6 (const.py). -/
def DEFAULT_NUM_INPUTS : Nat := 6

/-- Constant DEFAULT_NUM_OUTPUTS = 16 (const.py). -/
def DEFAULT_NUM_OUTPUTS : Nat := 16

/-- Lowercase, unpadded hexadecimal digits of a natural number.
Models the Python expression hex(n)[2:] for nonnegative n
(Nat.toDigits uses lowercase letters for digits 10..15). -/
def natToHex (n : Nat) : String := ⟨Nat.toDigits 16 n⟩

/-- Models hex(n)[2:] on an arbitrary Python int.  For negative n,
Python hex gives for example hex(-5) = "-0x5", whose [2:] slice is
"x5": the code never guards against this, so the model reproduces it. -/
def py_hex_body (n : Int) : String :=
  if 0 ≤ n then natToHex n.toNat else "x" ++ natToHex n.natAbs

/-- Models the Python format f"{n:02d}": the decimal digits of n,
left-padded with a zero to a minimum width of 2. -/
def pad2 (n : Nat) : String :=
  let s := toString n
  if s.length < 2 then "0" ++ s else s

/-- Models the Python format f"{i:x}" on an int: lowercase unpadded hex,
with a minus sign for negative values. -/
def py_format_hex (i : Int) : String :=
  if 0 ≤ i then natToHex i.toNat else "-" ++ natToHex i.natAbs

/-- Characters of a string with leading and trailing whitespace removed
(structural model of Python str.strip on ASCII input). -/
def trim_chars (l : List Char) : List Char :=
  ((l.dropWhile Char.isWhitespace).reverse.dropWhile Char.isWhitespace).reverse

/-- Models Python str.strip. -/
def py_trim (s : String) : String := ⟨trim_chars s.data⟩

/-- Environment outcome of one datagram exchange, seen from inside
send_command: the device answered, the 2.0 second receive timed out, or
some transport-level operation raised an exception. -/
inductive NetOutcome
  | reply (s : String)
  | timeout
  | exn
deriving DecidableEq

/-- Python exception kinds relevant to this driver. -/
inductive PyErr
  | valueError
  | indexError
  | transportError
deriving DecidableEq

/-- Boolean success test for a modelled Python computation: true when no
exception escaped. -/
def is_ok {α : Type} : Except PyErr α → Bool
  | .ok _ => true
  | .error _ => false

/-- Raw I/O of send_command up to and including the inner
try/except asyncio.TimeoutError: a reply yields the response bytes, the
timeout branch already converts silence to None inside the inner
except, and any other transport fault is a raised exception. -/
def transport_attempt : NetOutcome → Except PyErr (Option String)
  | .reply s => .ok (some s)
  | .timeout => .ok none
  | .exn => .error .transportError

/-- Control4MatrixAmp.send_command with its exception behaviour made
explicit: the outer except Exception catches every transport exception
and returns None, so the function never lets an exception escape.
A received reply is stripped of surrounding whitespace. -/
def send_command_exc (net : NetOutcome) : Except PyErr (Option String) :=
  match transport_attempt net with
  | .ok (some s) => .ok (some (py_trim s))
  | .ok none => .ok none
  | .error _ => .ok none

/-- The value send_command resolves to (it is always Except.ok). -/
def send_command (net : NetOutcome) : Option String :=
  match send_command_exc net with
  | .ok r => r
  | .error _ => none

/-- Datagram wrapping applied by send_command around the command body:
counter token (fixed prefix plus two random decimal digits), a space,
the body, then the terminator, a space followed by CRLF. -/
def wrap_command (counter_digits : Nat) (command : String) : String :=
  "0s2a" ++ toString counter_digits ++ " " ++ command ++ " \r\n"

/-- Control4MatrixAmp validate input source: requires 1 <= i <= 15
so that the input fits a single hex digit.  This is the only range
check anywhere in matrix_amp.py. -/
def validate_input_source (input_source : Int) : Bool :=
  1 ≤ input_source && input_source ≤ 15

/-- Control4MatrixAmp.set_output_source.  Returns the command body
handed to send_command (none when validation rejected the input before
any I/O) paired with the Python return value. -/
def set_output_source (output : Nat) (input_source : Int) (net : NetOutcome) :
    Option String × Bool :=
  if validate_input_source input_source then
    let output_str := pad2 output
    let input_hex := "0" ++ py_format_hex input_source
    let command := "c4.amp.out " ++ output_str ++ " " ++ input_hex
    (some command, (send_command net).isSome)
  else
    (none, false)

/-- Control4MatrixAmp.set_output_volume.  The body performs no range
check at all: it adds VOLUME_OFFSET and hex-encodes unconditionally. -/
def set_output_volume (output : Nat) (volume : Int) (net : NetOutcome) :
    Option String × Bool :=
  let output_str := pad2 output
  let volume_value : Int := volume + (VOLUME_OFFSET : Int)
  let volume_hex := py_hex_body volume_value
  let command := "c4.amp.chvol " ++ output_str ++ " " ++ volume_hex
  (some command, (send_command net).isSome)

/-- Control4MatrixAmp.power_on_output: textually the same body as
set_output_source (power-on is routing an input to the output). -/
def power_on_output (output : Nat) (input_source : Int) (net : NetOutcome) :
    Option String × Bool :=
  if validate_input_source input_source then
    let output_str := pad2 output
    let input_hex := "0" ++ py_format_hex input_source
    let command := "c4.amp.out " ++ output_str ++ " " ++ input_hex
    (some command, (send_command net).isSome)
  else
    (none, false)

/-- Control4MatrixAmp.power_off_output: no validation, routes input 00. -/
def power_off_output (output : Nat) (net : NetOutcome) : Option String × Bool :=
  let output_str := pad2 output
  let command := "c4.amp.out " ++ output_str ++ " 00"
  (some command, (send_command net).isSome)

/-- Observable events of one send_command execution, in order. -/
inductive Ev
  | acquire
  | sockOpen
  | send
  | recv
  | timeoutEv
  | release
  | close
deriving DecidableEq

/-- How one execution of send_command can go, by where (if anywhere)
the transport raised. -/
inductive RunOutcome
  | ok (resp : String)
  | timeout
  | openFail
  | sendFail
  | recvFail

/-- Event trace of Control4MatrixAmp.send_command.  The Python layout is

  try:
    async with self._lock:
      sock = socket.socket(...); send; recv-with-timeout
  except Exception: ...
  finally:
    if sock: sock.close()

so the finally clause sits OUTSIDE the async-with block: on every exit
(return or exception) the lock context manager releases the lock first,
and only then does the finally close the socket.  When socket creation
itself raised, sock is still None and no close happens. -/
def send_command_trace : RunOutcome → List Ev
  | .ok _ => [.acquire, .sockOpen, .send, .recv, .release, .close]
  | .timeout => [.acquire, .sockOpen, .send, .timeoutEv, .release, .close]
  | .openFail => [.acquire, .release]
  | .sendFail => [.acquire, .sockOpen, .release, .close]
  | .recvFail => [.acquire, .sockOpen, .send, .release, .close]

/-- Membership test on event lists. -/
def mem_ev (b : Ev) : List Ev → Bool
  | [] => false
  | e :: r => if e = b then true else mem_ev b r

/-- occurs_before a b l is true when some occurrence of a appears
strictly before an occurrence of b in l, with no b before that a. -/
def occurs_before (a b : Ev) : List Ev → Bool
  | [] => false
  | e :: r => if e = a then mem_ev b r else if e = b then false else occurs_before a b r

/-- Home Assistant MediaPlayerState values used by this integration. -/
inductive PlayerState
  | off
  | on
deriving DecidableEq

/-- State of one Control4MatrixAmpMediaPlayer entity (media_player.py).
output and num_inputs are set in the constructor and never change; the
remaining fields are the mutable tracked attributes. -/
structure ZoneState where
  output : Nat
  num_inputs : Nat
  state : PlayerState
  volume : Option Int
  currentSource : Option Int
  available : Bool
deriving DecidableEq

/-- Constructor state: state = OFF, volume = 0, current source = None,
available = True. -/
def initState (output num_inputs : Nat) : ZoneState :=
  { output := output
    num_inputs := num_inputs
    state := PlayerState.off
    volume := some 0
    currentSource := none
    available := true }

/-- Property volume_level: self._volume / 100.0 when the tracked volume
is not None, else None.  (The constructor initialises the volume to 0,
so the None branch is in fact never taken.) -/
def volume_level (z : ZoneState) : Option ℚ :=
  z.volume.map (fun v => (v : ℚ) / 100)

/-- Property source: the label "Input <n>" for the tracked source, or
None when no source was ever recorded. -/
def source_prop (z : ZoneState) : Option String :=
  z.currentSource.map (fun i => "Input " ++ toString i)

/-- Python truthiness of self._current_source: None and 0 are falsy. -/
def py_truthy_src : Option Int → Bool
  | none => false
  | some n => n != 0

/-- Python int() truncates an exact rational toward zero.  (The source
multiplies a binary float by 100 before truncating; the embedding uses
exact rationals, which agrees on all decimally-exact inputs.) -/
def py_trunc (q : ℚ) : Int := q.num.tdiv q.den

/-- Digit-string evaluator: accumulates the decimal value, failing on
the first non-digit character. -/
def digits_val : List Char → Nat → Option Nat
  | [], acc => some acc
  | c :: r, acc => if c.isDigit then digits_val r (10 * acc + (c.toNat - 48)) else none

/-- Value of a nonempty all-digit character list, none otherwise. -/
def parse_digits : List Char → Option Nat
  | [] => none
  | cs => digits_val cs 0

/-- Model of the Python int(str) constructor: strip whitespace, accept
an optional sign followed by a nonempty digit string.  (Underscore
digit grouping, accepted by CPython, is not modelled; no caller in this
repository produces it.) -/
def py_int_core (s : String) : Option Int :=
  match trim_chars s.data with
  | '-' :: rest => (parse_digits rest).map (fun n => -(n : Int))
  | '+' :: rest => (parse_digits rest).map (fun n => (n : Int))
  | cs => (parse_digits cs).map (fun n => (n : Int))

/-- int(s), raising ValueError on malformed input. -/
def py_int (s : String) : Except PyErr Int :=
  match py_int_core s with
  | some i => .ok i
  | none => .error .valueError

/-- Whitespace tokenizer worker: first argument is the remaining input,
second the current token accumulated in reverse. -/
def tokens_aux : List Char → List Char → List (List Char)
  | [], acc => if acc = [] then [] else [acc.reverse]
  | c :: rest, acc =>
      if c.isWhitespace then
        if acc = [] then tokens_aux rest [] else acc.reverse :: tokens_aux rest []
      else tokens_aux rest (c :: acc)

/-- Model of Python str.split() with no separator argument: split on
runs of whitespace, discarding empty tokens. -/
def py_split (s : String) : List String :=
  (tokens_aux s.data []).map (fun l => ⟨l⟩)

/-- source.split()[-1], raising IndexError when there is no token. -/
def last_token (s : String) : Except PyErr String :=
  match (py_split s).getLast? with
  | some t => .ok t
  | none => .error .indexError

/-- The parse performed by async_select_source before calling the amp:
int(source.split()[-1]). -/
def parse_source_label (source : String) : Except PyErr Int :=
  match last_token source with
  | .ok t => py_int t
  | .error e => .error e

/-- Control4MatrixAmpMediaPlayer.async_turn_on: route the tracked
source (default 1 when the tracked source is falsy, i.e. None or 0),
set tracked state to ON, and record the default source when none was
tracked.  The return value of power_on_output is ignored. -/
def async_turn_on (z : ZoneState) (net : NetOutcome) : ZoneState × Option String :=
  let input_source : Int :=
    if py_truthy_src z.currentSource then z.currentSource.getD 1 else 1
  let r := power_on_output z.output input_source net
  let z1 := { z with state := PlayerState.on }
  let z2 :=
    if py_truthy_src z.currentSource then z1
    else { z1 with currentSource := some input_source }
  (z2, r.fst)

/-- Control4MatrixAmpMediaPlayer.async_turn_off: issue power-off and
set tracked state to OFF unconditionally. -/
def async_turn_off (z : ZoneState) (net : NetOutcome) : ZoneState × Option String :=
  let r := power_off_output z.output net
  ({ z with state := PlayerState.off }, r.fst)

/-- Control4MatrixAmpMediaPlayer.async_set_volume_level: map the 0..1
level to an integer percentage with int(volume * 100), issue the
set-volume command, and record the volume unconditionally. -/
def async_set_volume_level (z : ZoneState) (volume : ℚ) (net : NetOutcome) :
    ZoneState × Option String :=
  let volume_int : Int := py_trunc (volume * 100)
  let r := set_output_volume z.output volume_int net
  ({ z with volume := some volume_int }, r.fst)

/-- Control4MatrixAmpMediaPlayer.async_select_source: parse the label
with int(source.split()[-1]) inside try/except (ValueError, IndexError);
on success call set_output_source and record the parsed source without
looking at the boolean result; on a caught parse error leave the state
unchanged.  Any other exception kind would propagate. -/
def async_select_source (z : ZoneState) (source : String) (net : NetOutcome) :
    Except PyErr (ZoneState × Option String) :=
  match parse_source_label source with
  | .ok input_num =>
      let r := set_output_source z.output input_num net
      .ok ({ z with currentSource := some input_num }, r.fst)
  | .error .valueError => .ok (z, none)
  | .error .indexError => .ok (z, none)
  | .error e => .error e

/-- Control4MatrixAmpMediaPlayer.async_select_source_to_output: the
custom service validates the input against the configured input count
before issuing the route; it records the source only in that branch. -/
def async_select_source_to_output (z : ZoneState) (input : Int) (net : NetOutcome) :
    ZoneState × Option String :=
  if 1 ≤ input ∧ input ≤ (z.num_inputs : Int) then
    let r := set_output_source z.output input net
    ({ z with currentSource := some input }, r.fst)
  else
    (z, none)

/-- Control4MatrixAmpMediaPlayer.async_update: the try body is the
single assignment self._available = True, which cannot raise, so the
except branch that would set the flag to False is dead code; the model
keeps only the live branch. -/
def async_update (z : ZoneState) : ZoneState :=
  { z with available := true }

/-- One invocation of a public facade operation together with the
environment outcome it ran against. -/
inductive FacadeOp
  | turnOn (net : NetOutcome)
  | turnOff (net : NetOutcome)
  | setVolumeLevel (q : ℚ) (net : NetOutcome)
  | selectSource (s : String) (net : NetOutcome)
  | selectSourceToOutput (i : Int) (net : NetOutcome)
  | update

/-- Apply one facade operation to the zone state.  async_select_source
never actually returns an error (proved below); the error fallback
keeps the function total. -/
def apply_op (z : ZoneState) : FacadeOp → ZoneState
  | .turnOn net => (async_turn_on z net).fst
  | .turnOff net => (async_turn_off z net).fst
  | .setVolumeLevel q net => (async_set_volume_level z q net).fst
  | .selectSource s net =>
      match async_select_source z s net with
      | .ok (z1, _) => z1
      | .error _ => z
  | .selectSourceToOutput i net => (async_select_source_to_output z i net).fst
  | .update => async_update z

/-- Helper: the two possible shapes of last_token. -/
lemma last_token_cases (s : String) :
    (∃ t, last_token s = .ok t) ∨ last_token s = .error .indexError := by
  unfold last_token
  cases (py_split s).getLast? with
  | none => exact .inr rfl
  | some t => exact .inl ⟨t, rfl⟩

/-- Helper: the two possible shapes of py_int. -/
lemma py_int_cases (s : String) :
    (∃ i, py_int s = .ok i) ∨ py_int s = .error .valueError := by
  unfold py_int
  cases py_int_core s with
  | none => exact .inr rfl
  | some i => exact .inl ⟨i, rfl⟩

/-- Helper: parse_source_label only ever produces a value, a ValueError
or an IndexError — exactly the exceptions async_select_source catches. -/
lemma parse_source_label_cases (s : String) :
    (∃ i, parse_source_label s = .ok i) ∨
    parse_source_label s = .error .valueError ∨
    parse_source_label s = .error .indexError := by
  unfold parse_source_label
  rcases last_token_cases s with ⟨t, ht⟩ | ht
  · rw [ht]
    rcases py_int_cases t with ⟨i, hi⟩ | hi
    · exact .inl ⟨i, hi⟩
    · exact .inr (.inl hi)
  · rw [ht]
    exact .inr (.inr rfl)

/-- Claim C1: for every output o in [1,16] and volume v in [0,100],
set_output_volume sends the body "c4.amp.chvol " followed by o
zero-padded to two decimal digits, a space, and the lowercase unpadded
hexadecimal representation of v + 160; in particular v = 50 yields
payload d2, v = 0 yields a0 and v = 100 yields 104. -/
theorem set_output_volume_encodes_offset_hex (o v : Nat) (net : NetOutcome)
    (ho : 1 ≤ o ∧ o ≤ 16) (hv : v ≤ 100) :
    (set_output_volume o (v : Int) net).fst =
      some ("c4.amp.chvol " ++ pad2 o ++ " " ++ natToHex (v + VOLUME_OFFSET)) ∧
    (set_output_volume 1 50 net).fst = some "c4.amp.chvol 01 d2" ∧
    (set_output_volume 1 0 net).fst = some "c4.amp.chvol 01 a0" ∧
    (set_output_volume 1 100 net).fst = some "c4.amp.chvol 01 104" := by
  have h0 : (0 : Int) ≤ (v : Int) + (VOLUME_OFFSET : Int) := by positivity
  have ht : ((v : Int) + (VOLUME_OFFSET : Int)).toNat = v + VOLUME_OFFSET := by
    simp [VOLUME_OFFSET]
    omega
  refine ⟨?_, rfl, rfl, rfl⟩
  simp [set_output_volume, py_hex_body, h0, ht]

/-- Witness for set_output_volume_encodes_offset_hex at o = 2, v = 50. -/
theorem set_output_volume_encodes_offset_hex_witness :
    (1 ≤ 2 ∧ 2 ≤ 16) ∧ 50 ≤ 100 ∧
    (set_output_volume 2 (50 : Int) NetOutcome.timeout).fst =
      some ("c4.amp.chvol " ++ pad2 2 ++ " " ++ natToHex (50 + VOLUME_OFFSET)) :=
  ⟨by decide, by decide,
    (set_output_volume_encodes_offset_hex 2 50 NetOutcome.timeout
      (by decide) (by decide)).1⟩

/-- Claim C2: for o in [1,16] and i in [1,15], set_output_source and
power_on_output send the identical body "c4.amp.out " followed by o
zero-padded to two decimal digits, a space, a literal 0 and the single
lowercase hex digit of i; in particular (3,10) yields
"c4.amp.out 03 0a" and (16,1) yields "c4.amp.out 16 01". -/
theorem routing_command_encoding (o : Nat) (i : Int) (net : NetOutcome)
    (h1 : 1 ≤ i) (h2 : i ≤ 15) :
    set_output_source o i net =
      (some ("c4.amp.out " ++ pad2 o ++ " " ++ ("0" ++ py_format_hex i)),
        (send_command net).isSome) ∧
    power_on_output o i net = set_output_source o i net ∧
    (py_format_hex i).length = 1 ∧
    (set_output_source 3 10 net).fst = some "c4.amp.out 03 0a" ∧
    (set_output_source 16 1 net).fst = some "c4.amp.out 16 01" := by
  have hv : validate_input_source i = true := by
    simp [validate_input_source]
    exact ⟨h1, h2⟩
  refine ⟨?_, rfl, ?_, rfl, rfl⟩
  · simp [set_output_source, hv]
  · interval_cases i <;> rfl

/-- Witness for routing_command_encoding at o = 3, i = 10. -/
theorem routing_command_encoding_witness :
    (1 : Int) ≤ 10 ∧ (10 : Int) ≤ 15 ∧
    (set_output_source 3 10 NetOutcome.timeout).fst = some "c4.amp.out 03 0a" :=
  ⟨by decide, by decide,
    (routing_command_encoding 3 10 NetOutcome.timeout (by decide) (by decide)).2.2.2.1⟩

/-- Counterexample to claim C3: a timeout resolves to exactly the same
indicator as a transport-level exception.  send_command returns none in
both cases, so set_output_source reports the same false either way:
the caller cannot tell indeterminate success from true failure. -/
theorem timeout_same_indicator_cex :
    send_command NetOutcome.timeout = none ∧
    send_command NetOutcome.exn = none ∧
    (set_output_source 1 1 NetOutcome.timeout).snd = false ∧
    (set_output_source 1 1 NetOutcome.exn).snd = false := by
  decide

/-- Claim C3, amended: on a datagram timeout send_command returns none —
the very same indicator a transport-level exception produces — so
command operations report false for both; the facade nonetheless
updates its tracked state optimistically in either case, because it
ignores the boolean result entirely. -/
theorem timeout_indicator_and_optimistic_update :
    send_command NetOutcome.timeout = send_command NetOutcome.exn ∧
    send_command NetOutcome.timeout = none ∧
    (∀ (o : Nat) (v : Int),
      (set_output_volume o v NetOutcome.timeout).snd = false ∧
      (set_output_volume o v NetOutcome.exn).snd = false) ∧
    (∀ (z : ZoneState) (q : ℚ) (net : NetOutcome),
      (async_set_volume_level z q net).fst.volume = some (py_trunc (q * 100))) ∧
    (∀ (z : ZoneState) (net : NetOutcome),
      (async_turn_off z net).fst.state = PlayerState.off) := by
  refine ⟨rfl, rfl, fun o v => ⟨rfl, rfl⟩, fun z q net => rfl, fun z net => rfl⟩

/-- Counterexample to claim C4: output 17 lies outside the configured
range [1, DEFAULT_NUM_OUTPUTS] = [1,16], yet every operation happily
encodes it and hands a command to the transport — nothing is rejected
before I/O. -/
theorem output_range_not_enforced_cex :
    DEFAULT_NUM_OUTPUTS < 17 ∧
    (set_output_volume 17 50 NetOutcome.timeout).fst = some "c4.amp.chvol 17 d2" ∧
    (set_output_source 17 1 NetOutcome.timeout).fst = some "c4.amp.out 17 01" ∧
    (power_on_output 17 1 NetOutcome.timeout).fst = some "c4.amp.out 17 01" ∧
    (power_off_output 17 NetOutcome.timeout).fst = some "c4.amp.out 17 00" := by
  decide

/-- Claim C4, amended: no operation validates the output argument; a
command is built and sent for every output value.  The only range check
before I/O anywhere in the amp module is the input-source check of
set_output_source and power_on_output, which rejects inputs outside
[1,15] with no send and a false result. -/
theorem only_input_range_enforced (o : Nat) (v i : Int) (net : NetOutcome) :
    (set_output_volume o v net).fst.isSome = true ∧
    (power_off_output o net).fst.isSome = true ∧
    (validate_input_source i = true →
      (set_output_source o i net).fst.isSome = true) ∧
    (validate_input_source i = false →
      set_output_source o i net = (none, false)) ∧
    power_on_output o i net = set_output_source o i net := by
  refine ⟨rfl, rfl, ?_, ?_, rfl⟩
  · intro h
    simp [set_output_source, h]
  · intro h
    simp [set_output_source, h]

/-- Witness for only_input_range_enforced at o = 17, v = 50, i = 0. -/
theorem only_input_range_enforced_witness :
    (set_output_volume 17 50 NetOutcome.timeout).fst.isSome = true ∧
    validate_input_source 0 = false ∧
    set_output_source 17 0 NetOutcome.timeout = (none, false) :=
  ⟨(only_input_range_enforced 17 50 0 NetOutcome.timeout).1, by decide,
    (only_input_range_enforced 17 50 0 NetOutcome.timeout).2.2.2.1 (by decide)⟩

/-- Counterexample to claim C5: volume 101 is outside [0,100], yet
set_output_volume rejects nothing: it encodes 101 + 160 = 261 as hex
105 and hands the command to the transport. -/
theorem volume_range_not_enforced_cex :
    100 < 101 ∧
    (set_output_volume 1 101 NetOutcome.timeout).fst = some "c4.amp.chvol 01 105" := by
  decide

/-- Claim C5, amended: set_output_volume performs no range validation at
all; for every volume, in range or not, it unconditionally encodes
volume + 160 in hex and sends the command, returning the transport
result. -/
theorem set_output_volume_never_rejects (o v : Nat) (net : NetOutcome) :
    set_output_volume o (v : Int) net =
      (some ("c4.amp.chvol " ++ pad2 o ++ " " ++ natToHex (v + VOLUME_OFFSET)),
        (send_command net).isSome) := by
  have h0 : (0 : Int) ≤ (v : Int) + (VOLUME_OFFSET : Int) := by positivity
  have ht : ((v : Int) + (VOLUME_OFFSET : Int)).toNat = v + VOLUME_OFFSET := by
    simp [VOLUME_OFFSET]
    omega
  simp [set_output_volume, py_hex_body, h0, ht]

/-- Counterexample to claim C6: selecting "Input 20" parses to input 20,
which set_output_source rejects as out of range — nothing is sent
(second component none) — yet the facade still overwrites the tracked
source with 20.  Tracked state is mutated by a failed-validation call. -/
theorem select_source_updates_despite_rejection_cex :
    validate_input_source 20 = false ∧
    (initState 1 6).currentSource = none ∧
    async_select_source (initState 1 6) "Input 20" NetOutcome.timeout =
      .ok ({ initState 1 6 with currentSource := some 20 }, none) := by
  refine ⟨by decide, rfl, rfl⟩

/-- Claim C6, amended: async_select_source records the parsed input
number whenever the label parses as an integer, regardless of whether
set_output_source validated it or sent anything; only a label whose
parse raises (caught ValueError or IndexError) leaves the tracked state
unchanged. -/
theorem select_source_update_follows_parse
    (z : ZoneState) (source : String) (net : NetOutcome) :
    (∀ e, parse_source_label source = .error e →
      async_select_source z source net = .ok (z, none)) ∧
    (∀ i, parse_source_label source = .ok i →
      async_select_source z source net =
        .ok ({ z with currentSource := some i },
          (set_output_source z.output i net).fst)) := by
  constructor
  · intro e he
    rcases parse_source_label_cases source with ⟨i, hi⟩ | hi | hi
    · rw [hi] at he
      exact absurd he (by simp)
    · simp [async_select_source, hi]
    · simp [async_select_source, hi]
  · intro i hi
    simp [async_select_source, hi]

/-- Witness for select_source_update_follows_parse on "Input 20". -/
theorem select_source_update_follows_parse_witness :
    parse_source_label "Input 20" = .ok 20 ∧
    async_select_source (initState 1 6) "Input 20" NetOutcome.timeout =
      .ok ({ initState 1 6 with currentSource := some 20 },
        (set_output_source (initState 1 6).output 20 NetOutcome.timeout).fst) :=
  ⟨rfl,
    (select_source_update_follows_parse (initState 1 6) "Input 20"
      NetOutcome.timeout).2 20 rfl⟩

/-- Counterexample to claim C7: on the ordinary success path the trace
of send_command releases the lock strictly before closing the socket —
the finally clause that closes the socket lies outside the async-with
block that holds the lock — so close-before-release is false. -/
theorem close_after_release_cex :
    occurs_before Ev.close Ev.release (send_command_trace (RunOutcome.ok "")) = false ∧
    mem_ev Ev.close (send_command_trace (RunOutcome.ok "")) = true ∧
    mem_ev Ev.release (send_command_trace (RunOutcome.ok "")) = true ∧
    occurs_before Ev.release Ev.close (send_command_trace (RunOutcome.ok "")) = true := by
  decide

/-- Claim C7, amended: on every execution path the lock is released,
and whenever the socket was opened it is also closed — but the close
happens after the lock release, not before, because the finally clause
sits outside the lock scope.  (When opening the socket itself failed,
sock is still None and there is nothing to close.) -/
theorem socket_closed_after_lock_release (o : RunOutcome) :
    mem_ev Ev.release (send_command_trace o) = true ∧
    (mem_ev Ev.sockOpen (send_command_trace o) = true →
      mem_ev Ev.close (send_command_trace o) = true ∧
      occurs_before Ev.release Ev.close (send_command_trace o) = true) := by
  cases o with
  | ok resp => exact ⟨rfl, fun _ => ⟨rfl, rfl⟩⟩
  | timeout => exact ⟨rfl, fun _ => ⟨rfl, rfl⟩⟩
  | openFail => exact ⟨rfl, fun h => absurd h (by decide)⟩
  | sendFail => exact ⟨rfl, fun _ => ⟨rfl, rfl⟩⟩
  | recvFail => exact ⟨rfl, fun _ => ⟨rfl, rfl⟩⟩

/-- Witness for socket_closed_after_lock_release on the timeout path. -/
theorem socket_closed_after_lock_release_witness :
    mem_ev Ev.release (send_command_trace RunOutcome.timeout) = true ∧
    mem_ev Ev.close (send_command_trace RunOutcome.timeout) = true ∧
    occurs_before Ev.release Ev.close (send_command_trace RunOutcome.timeout) = true :=
  ⟨(socket_closed_after_lock_release RunOutcome.timeout).1,
    ((socket_closed_after_lock_release RunOutcome.timeout).2 (by decide)).1,
    ((socket_closed_after_lock_release RunOutcome.timeout).2 (by decide)).2⟩

/-- Counterexample to claim C8: before any command has been issued the
zone does not read as unknown across the board — the constructor
initialises volume to 0, so volume_level is some 0 rather than none,
and the power state starts as OFF rather than unknown; only the source
reads none. -/
theorem initial_reads_not_unknown_cex :
    volume_level (initState 1 6) ≠ none ∧
    volume_level (initState 1 6) = some 0 ∧
    (initState 1 6).state = PlayerState.off ∧
    source_prop (initState 1 6) = none := by
  refine ⟨?_, ?_, rfl, rfl⟩
  · simp [volume_level, initState]
  · simp [volume_level, initState]

/-- Claim C8, amended: before any command only the source reads none;
power initialises to OFF and volume to 0 (normalized 0.0), not to an
unknown.  Afterwards each read returns the last recorded value: setting
the volume makes volume_level report the recorded percentage, and a
validated source selection makes the tracked source the selected one. -/
theorem initial_reads_and_recording (output num_inputs : Nat) :
    source_prop (initState output num_inputs) = none ∧
    (initState output num_inputs).state = PlayerState.off ∧
    volume_level (initState output num_inputs) = some 0 ∧
    (∀ (z : ZoneState) (q : ℚ) (net : NetOutcome),
      volume_level (async_set_volume_level z q net).fst =
        some ((py_trunc (q * 100) : ℚ) / 100)) ∧
    (∀ (z : ZoneState) (i : Int) (net : NetOutcome),
      1 ≤ i → i ≤ (z.num_inputs : Int) →
      (async_select_source_to_output z i net).fst.currentSource = some i) := by
  refine ⟨rfl, rfl, ?_, ?_, ?_⟩
  · simp [volume_level, initState]
  · intro z q net
    simp [volume_level, async_set_volume_level]
  · intro z i net h1 h2
    simp [async_select_source_to_output, h1, h2]

/-- Witness for initial_reads_and_recording at a concrete zone. -/
theorem initial_reads_and_recording_witness :
    source_prop (initState 1 6) = none ∧
    (1 : Int) ≤ 2 ∧ (2 : Int) ≤ ((initState 1 6).num_inputs : Int) ∧
    (async_select_source_to_output (initState 1 6) 2 NetOutcome.timeout).fst.currentSource
      = some 2 :=
  ⟨(initial_reads_and_recording 1 6).1, by decide, by decide,
    (initial_reads_and_recording 1 6).2.2.2.2 (initState 1 6) 2 NetOutcome.timeout
      (by decide) (by decide)⟩

/-- Claim C9: no driver operation lets an exception escape.  Every
transport exception inside send_command is swallowed by its
except-Exception clause, and every parse failure of a malformed source
label is a ValueError or IndexError, exactly the kinds
async_select_source catches — so both resolve to ordinary values for
every input and every environment outcome. -/
theorem no_uncaught_faults :
    (∀ net : NetOutcome, is_ok (send_command_exc net) = true) ∧
    (∀ (z : ZoneState) (source : String) (net : NetOutcome),
      is_ok (async_select_source z source net) = true) := by
  constructor
  · intro net
    cases net <;> rfl
  · intro z source net
    rcases parse_source_label_cases source with ⟨i, hi⟩ | hi | hi <;>
      simp [async_select_source, hi, is_ok]

/-- Helper: no facade operation ever changes a true availability flag
to anything but true. -/
lemma apply_op_preserves_available (z : ZoneState) (op : FacadeOp)
    (h : z.available = true) : (apply_op z op).available = true := by
  cases op with
  | turnOn net =>
      simp only [apply_op, async_turn_on]
      split <;> simpa using h
  | turnOff net => simpa [apply_op, async_turn_off] using h
  | setVolumeLevel q net => simpa [apply_op, async_set_volume_level] using h
  | selectSource s net =>
      simp only [apply_op]
      rcases parse_source_label_cases s with ⟨i, hi⟩ | hi | hi <;>
        simp [async_select_source, hi] <;> simpa using h
  | selectSourceToOutput i net =>
      simp only [apply_op, async_select_source_to_output]
      split <;> simpa using h
  | update => rfl

/-- Claim C10: the availability flag is invariantly true — it starts
true at construction, async_update only ever writes true (its except
branch is dead because the try body cannot raise), and no other facade
operation writes it, so after any sequence of facade operations the
entity still reports available. -/
theorem availability_always_true (ops : List FacadeOp) (output num_inputs : Nat) :
    (ops.foldl apply_op (initState output num_inputs)).available = true := by
  have key : ∀ (l : List FacadeOp) (z : ZoneState), z.available = true →
      (l.foldl apply_op z).available = true := by
    intro l
    induction l with
    | nil => intro z h; simpa using h
    | cons op rest ih =>
        intro z h
        exact ih _ (apply_op_preserves_available z op h)
  exact key ops _ rfl
